import Mathlib

/-!
Verification of the per-stream session engine of the speech ingress service:
the segment lifecycle state machine, the session handler callbacks, the
segment id generator, the event publisher and the stream driver's error
classifier, shallowly embedded from the Go sources.

Modelling conventions:
* `int64` fields (byte counters, offsets, wall-clock instants, durations)
  are modelled as `Int`; none of the verified properties depends on 64-bit
  signed wrap-around of those counters.
* The segment id generator's `uint64` counter is modelled with an explicit
  `% 2^64`, because the properties verified about it (monotonicity,
  non-reuse) do depend on unsigned wrap-around.
* Wall-clock reads (`time.Now`) are passed in as an explicit `now` argument.
* The `confidence float64` field is only ever carried through, never
  computed with; the engine observes exactly one property of it — whether
  `json.Marshal` supports the value (finite) or rejects it (`NaN`/`±Inf`) —
  so it is modelled by `Float64`: an opaque finite payload or one of the
  three non-finite values.  No floating-point arithmetic is modelled.
* Calls out to the STT adapter and the message bus are modelled as
  observable outputs (was the frame forwarded, did the adapter restart,
  which record was handed to the publisher), and the bus write outcome is
  an input parameter.
-/

namespace Ingress

/-! ## Segment lifecycle (internal/service/segment/state.go) -/

/-- Lifecycle state of a segment: `StateOpen`, `StateFinalEmitted`,
`StateClosed`, `StateDropped` from `state.go`. -/
inductive State where
  | Open : State
  | FinalEmitted : State
  | Closed : State
  | Dropped : State
deriving DecidableEq, Repr

/-- `State.IsTerminal`: true for `CLOSED` or `DROPPED`. -/
def State.IsTerminal (s : State) : Bool :=
  s = State.Closed ∨ s = State.Dropped

/-- The sentinel errors of `state.go`. -/
inductive LifecycleErr where
  | ErrSegmentClosed : LifecycleErr
  | ErrFinalAlreadyEmitted : LifecycleErr
  | ErrCannotEmitPartialAfterFinal : LifecycleErr
deriving DecidableEq, Repr

/-- `Lifecycle.EmitPartial`: validates a partial emission.  Returns the
(unchanged) state on success, the rejection error otherwise.  Mirrors the
`switch` in `state.go` (the `default` branch is unreachable: a `Lifecycle`
only ever holds one of the four declared states). -/
def EmitPartial : State → Except LifecycleErr State
  | State.Open => Except.ok State.Open
  | State.FinalEmitted => Except.error LifecycleErr.ErrCannotEmitPartialAfterFinal
  | State.Closed => Except.error LifecycleErr.ErrSegmentClosed
  | State.Dropped => Except.error LifecycleErr.ErrSegmentClosed

/-- `Lifecycle.EmitFinal`: validates and performs the transition to
`FINAL_EMITTED`.  Returns the new state on success. -/
def EmitFinal : State → Except LifecycleErr State
  | State.Open => Except.ok State.FinalEmitted
  | State.FinalEmitted => Except.error LifecycleErr.ErrFinalAlreadyEmitted
  | State.Closed => Except.error LifecycleErr.ErrSegmentClosed
  | State.Dropped => Except.error LifecycleErr.ErrSegmentClosed

/-- `Lifecycle.Close`: transition to `CLOSED` from any state, idempotent. -/
def CloseSeg : State → State := fun _ => State.Closed

/-- `Lifecycle.Drop`: transition to `DROPPED` unless already terminal.
Returns `(did-drop, new state)`. -/
def Drop (s : State) : Bool × State :=
  if s.IsTerminal then (false, s) else (true, State.Dropped)

/-- `Lifecycle.Reset`: back to `OPEN` (the new segment id is tracked at the
handler level). -/
def ResetSeg : State → State := fun _ => State.Open

/-! ### Traces of lifecycle operations on one segment (no `Reset`) -/

/-- One lifecycle operation, as invoked on a single segment between resets. -/
inductive LOp where
  | EmitPartialOp : LOp
  | EmitFinalOp : LOp
  | CloseOp : LOp
  | DropOp : LOp
deriving DecidableEq, Repr

/-- State after performing one lifecycle operation (rejected emissions leave
the state unchanged, exactly as in `state.go`). -/
def stepState (s : State) : LOp → State
  | LOp.EmitPartialOp => match EmitPartial s with
      | Except.ok s1 => s1
      | Except.error _ => s
  | LOp.EmitFinalOp => match EmitFinal s with
      | Except.ok s1 => s1
      | Except.error _ => s
  | LOp.CloseOp => CloseSeg s
  | LOp.DropOp => (Drop s).2

/-- State after a sequence of lifecycle operations. -/
def runOps (s : State) : List LOp → State
  | [] => s
  | op :: ops => runOps (stepState s op) ops

/-- Number of `EmitFinal` calls in the trace that return `nil` (succeed). -/
def okFinals (s : State) : List LOp → Nat
  | [] => 0
  | op :: ops =>
    (if op = LOp.EmitFinalOp ∧ s = State.Open then 1 else 0) + okFinals (stepState s op) ops

/-- A state other than `OPEN` never becomes `OPEN` again without a reset. -/
theorem stepState_ne_open {s : State} (h : s ≠ State.Open) (op : LOp) :
    stepState s op ≠ State.Open := by
  cases s <;> cases op <;> simp [stepState, EmitPartial, EmitFinal, CloseSeg, Drop,
    State.IsTerminal] at h ⊢

/-- No `EmitFinal` succeeds along any trace that starts away from `OPEN`. -/
theorem okFinals_eq_zero_of_ne_open {s : State} (h : s ≠ State.Open) (ops : List LOp) :
    okFinals s ops = 0 := by
  induction ops generalizing s with
  | nil => rfl
  | cons op ops ih =>
    simp only [okFinals]
    rw [if_neg (by rintro ⟨-, rfl⟩; exact h rfl), ih (stepState_ne_open h op)]

/-- Once away from `OPEN`, a no-reset trace never returns to `OPEN`. -/
theorem runOps_ne_open (ops : List LOp) : ∀ {s : State}, s ≠ State.Open →
    runOps s ops ≠ State.Open := by
  induction ops with
  | nil => intro s hs; simpa [runOps] using hs
  | cons op ops ih => intro s hs; exact ih (stepState_ne_open hs op)

/-- Along any no-reset trace from `OPEN`, `EmitFinal` succeeds at most once. -/
theorem okFinals_le_one (ops : List LOp) : okFinals State.Open ops ≤ 1 := by
  induction ops with
  | nil => simp [okFinals]
  | cons op ops ih =>
    cases op with
    | EmitFinalOp =>
      simp only [okFinals, and_self, if_true]
      have h0 : okFinals (stepState State.Open LOp.EmitFinalOp) ops = 0 :=
        okFinals_eq_zero_of_ne_open (by simp [stepState, EmitFinal]) ops
      omega
    | EmitPartialOp => simpa [okFinals, stepState, EmitPartial] using ih
    | CloseOp =>
      simp only [okFinals]
      rw [if_neg (by rintro ⟨h, -⟩; cases h)]
      rw [okFinals_eq_zero_of_ne_open (by simp [stepState, CloseSeg]) ops]
      omega
    | DropOp =>
      simp only [okFinals]
      rw [if_neg (by rintro ⟨h, -⟩; cases h)]
      rw [okFinals_eq_zero_of_ne_open
        (by simp [stepState, Drop, State.IsTerminal]) ops]
      omega

/-- If the state is still `OPEN` after a trace, no final succeeded in it. -/
theorem okFinals_eq_zero_of_runOps_open (ops : List LOp)
    (h : runOps State.Open ops = State.Open) : okFinals State.Open ops = 0 := by
  induction ops with
  | nil => rfl
  | cons op ops ih =>
    cases op with
    | EmitFinalOp =>
      exfalso
      have h1 : stepState State.Open LOp.EmitFinalOp = State.FinalEmitted := by
        simp [stepState, EmitFinal]
      rw [runOps, h1] at h
      exact runOps_ne_open ops (by simp) h
    | EmitPartialOp =>
      simp only [okFinals]
      rw [if_neg (by rintro ⟨h2, -⟩; cases h2)]
      have h1 : stepState State.Open LOp.EmitPartialOp = State.Open := by
        simp [stepState, EmitPartial]
      rw [runOps, h1] at h
      simpa [h1] using ih h
    | CloseOp =>
      exfalso
      have h1 : stepState State.Open LOp.CloseOp = State.Closed := by
        simp [stepState, CloseSeg]
      rw [runOps, h1] at h
      exact runOps_ne_open ops (by simp) h
    | DropOp =>
      exfalso
      have h1 : stepState State.Open LOp.DropOp = State.Dropped := by
        simp [stepState, Drop, State.IsTerminal]
      rw [runOps, h1] at h
      exact runOps_ne_open ops (by simp) h

/-! ## Decimal rendering (`fmt.Sprintf("%d", n)`) -/

/-- Digit characters of `n` in base 10, most significant first; the fuel
argument (instantiated with `n + 1`, always sufficient) makes the recursion
structural. -/
def decChars : Nat → Nat → List Char
  | 0, _ => []
  | f + 1, n =>
    if n < 10 then [Nat.digitChar n]
    else decChars f (n / 10) ++ [Nat.digitChar (n % 10)]

/-- The decimal rendering of a natural number, the model of Go's `%d`
formatting of an unsigned integer. -/
def decimalStr (n : Nat) : String := String.mk (decChars (n + 1) n)

/-- Decimal re-parsing, used to show `decChars` is injective. -/
def ofDec (l : List Char) : Nat := l.foldl (fun a c => 10 * a + (c.toNat - 48)) 0

theorem ofDec_append_one (l : List Char) (c : Char) :
    ofDec (l ++ [c]) = 10 * ofDec l + (c.toNat - 48) := by
  simp [ofDec, List.foldl_append]

theorem digitChar_toNat : ∀ m : Nat, m < 10 → (Nat.digitChar m).toNat = 48 + m := by
  decide

theorem ofDec_decChars (fuel n : Nat) (h : n < fuel) : ofDec (decChars fuel n) = n := by
  induction fuel generalizing n with
  | zero => omega
  | succ f ih =>
    by_cases h10 : n < 10
    · simp [decChars, h10, ofDec, digitChar_toNat n h10]
    · have hdiv : n / 10 < n := Nat.div_lt_self (by omega) (by omega)
      have hmod : n % 10 < 10 := Nat.mod_lt _ (by omega)
      rw [decChars, if_neg h10, ofDec_append_one, ih _ (by omega), digitChar_toNat _ hmod]
      omega

/-- The decimal rendering is injective. -/
theorem decimalStr_inj {m n : Nat} (h : decimalStr m = decimalStr n) : m = n := by
  have hd : decChars (m + 1) m = decChars (n + 1) n := by
    simpa [decimalStr] using congrArg String.data h
  have := congrArg ofDec hd
  rwa [ofDec_decChars _ _ (Nat.lt_succ_self m), ofDec_decChars _ _ (Nat.lt_succ_self n)] at this

/-- Every character of a decimal rendering is a digit, in particular not a dash. -/
theorem decChars_no_dash (fuel n : Nat) : ∀ c ∈ decChars fuel n, c ≠ '-' := by
  induction fuel generalizing n with
  | zero => simp [decChars]
  | succ f ih =>
    intro c hc
    by_cases h10 : n < 10
    · rw [decChars, if_pos h10] at hc
      simp only [List.mem_singleton] at hc
      subst hc
      have hdig : ∀ m : Nat, m < 10 → Nat.digitChar m ≠ '-' := by decide
      exact hdig n h10
    · rw [decChars, if_neg h10] at hc
      rcases List.mem_append.mp hc with h1 | h1
      · exact ih _ c h1
      · simp only [List.mem_singleton] at h1
        subst h1
        have hdig : ∀ m : Nat, m < 10 → Nat.digitChar m ≠ '-' := by decide
        exact hdig _ (Nat.mod_lt _ (by omega))

/-! ## Segment id generator (internal/service/segment/segment.go) -/

/-- `2^64`, the modulus of Go's `uint64` counter. -/
def U64 : Nat := 2 ^ 64

/-- The segment id string `fmt.Sprintf("%s-seg-%d", interactionId, n)`. -/
def mkSegId (interactionId : String) (n : Nat) : String :=
  interactionId ++ "-seg-" ++ decimalStr n

/-- `Generator.Next`: atomically increment the `uint64` counter (wrapping at
`2^64`) and render the id.  Returns the new counter together with the id. -/
def generatorNext (counter : Nat) (interactionId : String) : Nat × String :=
  let n := (counter + 1) % U64
  (n, mkSegId interactionId n)

/-- Counter value after `k` calls to `Next` on a fresh generator (`New()`
starts from zero); this is also the `n` used by the `k`-th call (`k ≥ 1`). -/
def genCounterAfter : Nat → Nat
  | 0 => 0
  | k + 1 => (generatorNext (genCounterAfter k) "").1

/-- Segment id produced by the `k`-th call (`k ≥ 1`) on a fresh generator. -/
def segIdAt (interactionId : String) (k : Nat) : String :=
  (generatorNext (genCounterAfter (k - 1)) interactionId).2

theorem genCounterAfter_eq (k : Nat) : genCounterAfter k = k % U64 := by
  induction k with
  | zero => rfl
  | succ k ih =>
    show (genCounterAfter k + 1) % U64 = (k + 1) % U64
    rw [ih, Nat.mod_add_mod]

/-- Splitting a list of characters at a dash separator is unambiguous when
neither candidate head contains a dash. -/
theorem append_dash_inj : ∀ (x1 : List Char) {x2 y1 y2 : List Char},
    (∀ c ∈ x1, c ≠ '-') → (∀ c ∈ x2, c ≠ '-') →
    x1 ++ '-' :: y1 = x2 ++ '-' :: y2 → x1 = x2 ∧ y1 = y2 := by
  intro x1
  induction x1 with
  | nil =>
    intro x2 y1 y2 _ h2 h
    cases x2 with
    | nil => simpa using h
    | cons c t =>
      exfalso
      simp only [List.nil_append, List.cons_append, List.cons.injEq] at h
      exact h2 c (List.mem_cons_self c t) h.1.symm
  | cons c1 t1 ih =>
    intro x2 y1 y2 h1 h2 h
    cases x2 with
    | nil =>
      exfalso
      simp only [List.nil_append, List.cons_append, List.cons.injEq] at h
      exact h1 c1 (List.mem_cons_self c1 t1) h.1
    | cons c2 t2 =>
      simp only [List.cons_append, List.cons.injEq] at h
      obtain ⟨hc, ht⟩ := h
      obtain ⟨he, hy⟩ := ih (fun c hc2 => h1 c (List.mem_cons_of_mem _ hc2))
        (fun c hc2 => h2 c (List.mem_cons_of_mem _ hc2)) ht
      exact ⟨by rw [hc, he], hy⟩

/-- The `"{interactionId}-seg-{n}"` format is injective: distinct
`(interaction_id, n)` pairs produce distinct segment ids. -/
theorem mkSegId_inj {i1 i2 : String} {n1 n2 : Nat}
    (h : mkSegId i1 n1 = mkSegId i2 n2) : i1 = i2 ∧ n1 = n2 := by
  have hdata : i1.data ++ "-seg-".data ++ (decimalStr n1).data
      = i2.data ++ "-seg-".data ++ (decimalStr n2).data := by
    simpa [mkSegId, String.data_append] using congrArg String.data h
  have hsep : "-seg-".data = ['-', 's', 'e', 'g', '-'] := by decide
  rw [hsep] at hdata
  have hrev := congrArg List.reverse hdata
  simp only [List.reverse_append, List.reverse_cons, List.reverse_nil,
    List.nil_append, List.cons_append, List.append_assoc] at hrev
  have hd1 : ∀ c ∈ (decimalStr n1).data.reverse, c ≠ '-' := by
    intro c hc
    exact decChars_no_dash (n1 + 1) n1 c (by simpa [decimalStr] using List.mem_reverse.mp hc)
  have hd2 : ∀ c ∈ (decimalStr n2).data.reverse, c ≠ '-' := by
    intro c hc
    exact decChars_no_dash (n2 + 1) n2 c (by simpa [decimalStr] using List.mem_reverse.mp hc)
  obtain ⟨hdec, hrest⟩ := append_dash_inj _ hd1 hd2 (by
    simpa using hrev)
  have hn : n1 = n2 := by
    apply decimalStr_inj
    apply String.ext
    have := congrArg List.reverse hdec
    simpa using this
  have hi : i1 = i2 := by
    apply String.ext
    have hr : i1.data.reverse = i2.data.reverse := by
      simpa using hrest
    have := congrArg List.reverse hr
    simpa using this
  exact ⟨hi, hn⟩

/-! ## Transcript event records (internal/models/transcript.go) -/

/-- `TranscriptPartial`.  `timestamp` is Unix milliseconds. -/
structure TranscriptPartial where
  eventType : String
  interactionId : String
  tenantId : String
  timestamp : Int
  segmentId : String
  text : String
deriving DecidableEq, Repr

/-- Model of a Go `float64` as far as this engine observes it: confidences
are only carried through, and `encoding/json` distinguishes exactly finite
values (marshallable) from `NaN`/`±Inf` (`json.Marshal` fails with an
unsupported-value error).  Finite values carry an opaque payload. -/
inductive Float64 where
  | finite : Int → Float64
  | nan : Float64
  | posInf : Float64
  | negInf : Float64
deriving DecidableEq, Repr

/-- The value name used in Go's `json: unsupported value: ...` error. -/
def Float64.jsonErrName : Float64 → String
  | Float64.nan => "NaN"
  | Float64.posInf => "+Inf"
  | Float64.negInf => "-Inf"
  | Float64.finite _ => ""

/-- `TranscriptFinal`.  The `confidence float64` field is carried through
opaquely (never computed with); see `Float64`. -/
structure TranscriptFinal where
  eventType : String
  interactionId : String
  tenantId : String
  timestamp : Int
  segmentId : String
  text : String
  confidence : Float64
  audioOffsetMs : Int
deriving DecidableEq, Repr

/-! ## Session handler (internal/service/audio, current revision with
`pendingRestart` and `continuousMode`) -/

/-- `SegmentLimits`.  `MaxDuration` is in the same opaque wall-clock unit as
the `now` arguments below (Go: nanoseconds). -/
structure SegmentLimits where
  MaxAudioBytes : Int
  MaxDuration : Int
  MaxPartials : Int
deriving DecidableEq, Repr

/-- The lifecycle owned by a handler: segment id plus state. -/
structure Lifecycle where
  segmentId : String
  state : State
deriving DecidableEq, Repr

/-- The handler's mutable fields.  `gen` is the shared segment generator's
counter (`none` models a nil generator); `ctxSet` records whether `Start`
stored a stream context (the adapter is only restarted when it did). -/
structure Handler where
  interactionId : String
  tenantId : String
  lastAudioOffsetMs : Int
  ctxSet : Bool
  lifecycle : Lifecycle
  limits : SegmentLimits
  segmentStartTime : Int
  audioBytes : Int
  partialCount : Int
  utteranceCount : Int
  pendingRestart : Bool
  continuousMode : Bool
  gen : Option Nat
deriving DecidableEq, Repr

/-- `NewHandlerWithLimits`: fresh handler with an `OPEN` lifecycle. -/
def newHandlerWithLimits (gen : Option Nat) (interactionId tenantId segmentId : String)
    (limits : SegmentLimits) (now : Int) : Handler :=
  { interactionId := interactionId
    tenantId := tenantId
    lastAudioOffsetMs := 0
    ctxSet := false
    lifecycle := { segmentId := segmentId, state := State.Open }
    limits := limits
    segmentStartTime := now
    audioBytes := 0
    partialCount := 0
    utteranceCount := 0
    pendingRestart := false
    continuousMode := false
    gen := gen }

/-- `Handler.DropSegment`: attempt `lifecycle.Drop`; the reason is only
logged/recorded, not stored.  Returns the updated handler and *did-drop*. -/
def dropSegment (h : Handler) : Handler × Bool :=
  let r := Drop h.lifecycle.state
  ({ h with lifecycle := { h.lifecycle with state := r.2 } }, r.1)

/-- `Handler.OnError`: drop the segment, publish nothing. -/
def onError (h : Handler) : Handler := (dropSegment h).1

/-- `Handler.Close`: mark the lifecycle `CLOSED` (the adapter close is an
external effect). -/
def closeHandler (h : Handler) : Handler :=
  { h with lifecycle := { h.lifecycle with state := CloseSeg h.lifecycle.state } }

/-- `Handler.OnEndOfUtterance`: arm the pending-restart flag, nothing else. -/
def onEndOfUtterance (h : Handler) : Handler := { h with pendingRestart := true }

/-- Outcome of `Handler.SendAudio`: either the frame was forwarded to the
STT adapter, or a limit was exceeded — then `reason` is the string passed
to `DropSegment` and `errMsg` the error returned to the caller, and the
frame was *not* forwarded. -/
inductive SendOutcome where
  | forwarded : SendOutcome
  | limitExceeded : (reason : String) → (errMsg : String) → SendOutcome
deriving DecidableEq, Repr

/-- The byte-limit drop reason
`fmt.Sprintf("max audio bytes exceeded: %d > %d", currentBytes, max)`. -/
def bytesReason (h1 : Handler) : String :=
  "max audio bytes exceeded: " ++ toString h1.audioBytes ++ " > "
    ++ toString h1.limits.MaxAudioBytes

/-- The duration-limit drop reason (`time.Duration` values are rendered by
`toString` of the elapsed tick count; no verified property inspects this
string). -/
def durationReason (h1 : Handler) (now : Int) : String :=
  "max duration exceeded: " ++ toString (now - h1.segmentStartTime) ++ " > "
    ++ toString h1.limits.MaxDuration

/-- Limit checks of `Handler.SendAudio`, applied to the already-updated
handler snapshot (byte counter and offset updated first, as in the Go
code): byte limit, then duration limit, else forward to the adapter. -/
def sendAudioChecked (h1 : Handler) (now : Int) : Handler × SendOutcome :=
  if h1.limits.MaxAudioBytes > 0 ∧ h1.audioBytes > h1.limits.MaxAudioBytes then
    ((dropSegment h1).1, SendOutcome.limitExceeded (bytesReason h1)
      ("segment limit exceeded: " ++ bytesReason h1))
  else if h1.limits.MaxDuration > 0 ∧ now - h1.segmentStartTime > h1.limits.MaxDuration then
    ((dropSegment h1).1, SendOutcome.limitExceeded (durationReason h1 now)
      ("segment limit exceeded: " ++ durationReason h1 now))
  else
    (h1, SendOutcome.forwarded)

/-- First step of `Handler.SendAudio` (the Go local `h1`): store the
frame's offset and add its length to the byte counter. -/
def sendAudioUpdated (h : Handler) (audio : List Nat) (audioOffsetMs : Int) : Handler :=
  { h with lastAudioOffsetMs := audioOffsetMs,
           audioBytes := h.audioBytes + (audio.length : Int) }

/-- `Handler.SendAudio`: update offset and byte counter, then enforce the
byte and duration limits (dropping the segment on violation), else forward
to the adapter.  `audio` is the frame's byte payload, `now` the wall clock
read by `time.Since`. -/
def sendAudio (h : Handler) (audio : List Nat) (audioOffsetMs : Int) (now : Int) :
    Handler × SendOutcome :=
  sendAudioChecked (sendAudioUpdated h audio audioOffsetMs) now

/-- `Handler.OnPartial`: admit through the lifecycle, count the partial and
enforce `MaxPartials`, then hand a `TranscriptPartial` to the publisher.
Returns the record handed over, or `none` when nothing was published. -/
def onPartial (h : Handler) (text : String) (now : Int) :
    Handler × Option TranscriptPartial :=
  match EmitPartial h.lifecycle.state with
  | Except.error _ => (h, none)
  | Except.ok s1 =>
    let h1 := { h with lifecycle := { h.lifecycle with state := s1 },
                       partialCount := h.partialCount + 1 }
    if h1.limits.MaxPartials > 0 ∧ h1.partialCount > h1.limits.MaxPartials then
      ((dropSegment h1).1, none)
    else
      (h1, some { eventType := "interaction.transcript.partial"
                  interactionId := h1.interactionId
                  tenantId := h1.tenantId
                  segmentId := h1.lifecycle.segmentId
                  text := text
                  timestamp := now })

/-- Common body of `handleUtteranceTransition` and
`handleContinuousModeTransition`: close the old segment, allocate a new id,
reset the per-segment counters, reset the lifecycle to `OPEN`. -/
def rolloverSegment (h : Handler) (now : Int) : Handler :=
  let oldSegmentId := h.lifecycle.segmentId
  let p : Option Nat × String := match h.gen with
    | some c => let r := generatorNext c h.interactionId; (some r.1, r.2)
    | none => (none, oldSegmentId ++ "-next")
  { h with lifecycle := { segmentId := p.2, state := State.Open }
           utteranceCount := h.utteranceCount + 1
           audioBytes := 0
           partialCount := 0
           segmentStartTime := now
           gen := p.1 }

/-- `Handler.OnFinal`: admit through the lifecycle (transitioning to
`FINAL_EMITTED`), hand a `TranscriptFinal` to the publisher, then either
run the pending single-utterance rollover (restarting the adapter when a
stream context was stored), or the continuous-mode rollover (no restart),
or nothing.  Returns the record handed over (`none` when rejected) and
whether the adapter was restarted. -/
def onFinal (h : Handler) (text : String) (confidence : Float64) (now : Int) :
    Handler × Option TranscriptFinal × Bool :=
  match EmitFinal h.lifecycle.state with
  | Except.error _ => (h, none, false)
  | Except.ok s1 =>
    let h1 := { h with lifecycle := { h.lifecycle with state := s1 } }
    let ev : TranscriptFinal :=
      { eventType := "interaction.transcript.final"
        interactionId := h1.interactionId
        tenantId := h1.tenantId
        segmentId := h1.lifecycle.segmentId
        text := text
        confidence := confidence
        audioOffsetMs := h1.lastAudioOffsetMs
        timestamp := now }
    let needsRestart := h1.pendingRestart
    let h2 := { h1 with pendingRestart := false }
    if needsRestart then
      (rolloverSegment h2 now, some ev, h2.ctxSet)
    else if h2.continuousMode then
      (rolloverSegment h2 now, some ev, false)
    else
      (h2, some ev, false)

/-! ## Event publisher (internal/events/publisher.go) -/

/-- `events.Config`. -/
structure KafkaConfig where
  Brokers : List String
  TopicPartial : String
  TopicFinal : String
  Principal : String
  Enabled : Bool
deriving DecidableEq, Repr

/-- `events.Publisher`: the two writers are modelled by presence flags. -/
structure Publisher where
  hasWriterPartial : Bool
  hasWriterFinal : Bool
  principal : String
  topicPartial : String
  topicFinal : String
  enabled : Bool
deriving DecidableEq, Repr

/-- `events.New`: nil config, `Enabled == false` or an empty broker list
all construct the disabled (log-only) publisher; otherwise both Kafka
writers are created. -/
def eventsNew : Option KafkaConfig → Publisher
  | none =>
    { hasWriterPartial := false, hasWriterFinal := false, principal := ""
      topicPartial := "", topicFinal := "", enabled := false }
  | some cfg =>
    if ¬cfg.Enabled ∨ cfg.Brokers = [] then
      { hasWriterPartial := false, hasWriterFinal := false, principal := cfg.Principal
        topicPartial := cfg.TopicPartial, topicFinal := cfg.TopicFinal, enabled := false }
    else
      { hasWriterPartial := true, hasWriterFinal := true, principal := cfg.Principal
        topicPartial := cfg.TopicPartial, topicFinal := cfg.TopicFinal, enabled := true }

/-- `json.Marshal` of a `TranscriptPartial`: strings and int64 fields
always marshal, so this never fails. -/
def marshalPartialRes (_ev : TranscriptPartial) : Except String Unit :=
  Except.ok ()

/-- `json.Marshal` of a `TranscriptFinal`: fails exactly when the
`float64` confidence is `NaN` or `±Inf` (Go's
`json: unsupported value: ...` error); every other field always
marshals. -/
def marshalFinalRes (ev : TranscriptFinal) : Except String Unit :=
  match ev.confidence with
  | Float64.finite _ => Except.ok ()
  | c => Except.error ("json: unsupported value: " ++ c.jsonErrName)

/-- `Publisher.publish`: marshal the record first — a marshal error is
returned *before* the disabled/writer check — then, if the publisher is
disabled or the writer nil, log only and succeed; otherwise return the bus
write's outcome `busWrite` (supplied by the transport). -/
def publishTo (p : Publisher) (hasWriter : Bool) (marshal busWrite : Except String Unit) :
    Except String Unit :=
  match marshal with
  | Except.error e => Except.error e
  | Except.ok _ =>
    if ¬p.enabled ∨ ¬hasWriter then Except.ok () else busWrite

/-- `Publisher.PublishPartial`. -/
def publishPartialEv (p : Publisher) (_key : String) (ev : TranscriptPartial)
    (busWrite : Except String Unit) : Except String Unit :=
  publishTo p p.hasWriterPartial (marshalPartialRes ev) busWrite

/-- `Publisher.PublishFinal`. -/
def publishFinalEv (p : Publisher) (_key : String) (ev : TranscriptFinal)
    (busWrite : Except String Unit) : Except String Unit :=
  publishTo p p.hasWriterFinal (marshalFinalRes ev) busWrite

/-! ## Stream driver error classifier (internal/api/grpc/server.go) -/

/-- The gRPC status codes distinguished by `classifyStreamError`; any other
code is carried with its `Code.String()` rendering. -/
inductive GrpcCode where
  | Canceled : GrpcCode
  | DeadlineExceeded : GrpcCode
  | Unavailable : GrpcCode
  | ResourceExhausted : GrpcCode
  | Internal : GrpcCode
  | OtherCode : String → GrpcCode
deriving DecidableEq, Repr

/-- The observable features of a Go `error` that `classifyStreamError`
branches on: `errors.Is(err, context.Canceled)`,
`errors.Is(err, context.DeadlineExceeded)`, `status.FromError(err)`
(`some code` when `ok`), `errors.Is(err, io.EOF)`, and `err.Error()`. -/
structure StreamErr where
  isContextCanceled : Bool
  isContextDeadline : Bool
  grpcStatus : Option GrpcCode
  isIoEOF : Bool
  errString : String
deriving DecidableEq, Repr

/-- `classifyStreamError`: human-readable drop reason for a stream error
(`none` models a nil error). -/
def classifyStreamError : Option StreamErr → String
  | none => "unknown"
  | some e =>
    if e.isContextCanceled then "client disconnect (context canceled)"
    else if e.isContextDeadline then "timeout (deadline exceeded)"
    else match e.grpcStatus with
      | some GrpcCode.Canceled => "client disconnect (gRPC canceled)"
      | some GrpcCode.DeadlineExceeded => "timeout (gRPC deadline exceeded)"
      | some GrpcCode.Unavailable => "network error (unavailable)"
      | some GrpcCode.ResourceExhausted => "resource exhausted"
      | some GrpcCode.Internal => "internal error"
      | some (GrpcCode.OtherCode s) => "gRPC error: " ++ s
      | none =>
        if e.isIoEOF ∨ e.errString = "EOF" then "unexpected connection close (EOF)"
        else "stream error: " ++ e.errString

/-! ## Helper lemmas about traces and callbacks -/

theorem okFinals_append (s : State) (l1 l2 : List LOp) :
    okFinals s (l1 ++ l2) = okFinals s l1 + okFinals (runOps s l1) l2 := by
  induction l1 generalizing s with
  | nil => simp [okFinals, runOps]
  | cons op t ih => simp [okFinals, runOps, ih, Nat.add_assoc]

/-- A rejected `OnFinal` changes nothing and publishes nothing. -/
theorem onFinal_rejected (h : Handler) (text : String) (confidence : Float64) (now : Int)
    (hne : h.lifecycle.state ≠ State.Open) :
    onFinal h text confidence now = (h, none, false) := by
  unfold onFinal
  cases hs : h.lifecycle.state with
  | Open => exact absurd hs hne
  | FinalEmitted => rfl
  | Closed => rfl
  | Dropped => rfl

/-- A rejected `OnPartial` changes nothing and publishes nothing. -/
theorem onPartial_rejected (h : Handler) (text : String) (now : Int)
    (hne : h.lifecycle.state ≠ State.Open) :
    onPartial h text now = (h, none) := by
  unfold onPartial
  cases hs : h.lifecycle.state with
  | Open => exact absurd hs hne
  | FinalEmitted => rfl
  | Closed => rfl
  | Dropped => rfl

/-- A published partial was admitted while the segment was `OPEN`, stays
`OPEN`, and is stamped with the current segment id. -/
theorem onPartial_published (h : Handler) (text : String) (now : Int)
    (h2 : Handler) (ev : TranscriptPartial)
    (heq : onPartial h text now = (h2, some ev)) :
    h.lifecycle.state = State.Open ∧ h2.lifecycle.state = State.Open
      ∧ ev.segmentId = h.lifecycle.segmentId := by
  unfold onPartial at heq
  cases hs : h.lifecycle.state with
  | Open =>
    rw [hs] at heq
    simp only [ EmitPartial] at heq
    split at heq
    · exact absurd (congrArg (fun p => p.2) heq) (by simp)
    · refine ⟨rfl, ?_, ?_⟩
      · have := congrArg (fun p => p.1) heq
        simp only at this
        rw [← this]
      · have := congrArg (fun p => p.2) heq
        simp only [Option.some.injEq] at this
        rw [← this]
  | FinalEmitted =>
    rw [hs] at heq
    exact absurd (congrArg (fun p => p.2) heq) (by simp [ EmitPartial])
  | Closed =>
    rw [hs] at heq
    exact absurd (congrArg (fun p => p.2) heq) (by simp [ EmitPartial])
  | Dropped =>
    rw [hs] at heq
    exact absurd (congrArg (fun p => p.2) heq) (by simp [ EmitPartial])

/-! ## Claims -/

/-- C1 (counterexample).  The claim "DROPPED implies no final event has
been emitted" fails on the code: starting from `OPEN`, the trace
`[EmitFinal, Drop]` publishes a final (one successful `EmitFinal`) and then
`Drop` itself reports *did-drop = true* from `FINAL_EMITTED`, leaving the
segment `DROPPED`. -/
theorem claim_C1_counterexample :
    okFinals State.Open [LOp.EmitFinalOp, LOp.DropOp] = 1
    ∧ runOps State.Open [LOp.EmitFinalOp, LOp.DropOp] = State.Dropped
    ∧ (Drop (runOps State.Open [LOp.EmitFinalOp])).1 = true := by
  decide

/-- C1 (amended).  Once the state is `DROPPED`, no `EmitFinal` call
succeeds afterwards; if the drop occurred while the segment was still
`OPEN`, no `EmitFinal` succeeded before it either; and the only way a
successful drop can follow a successful final is that the drop occurred
from `FINAL_EMITTED`. -/
theorem claim_C1_amended :
    (∀ ops : List LOp, okFinals State.Dropped ops = 0)
    ∧ (∀ pre post : List LOp, runOps State.Open pre = State.Open →
        okFinals State.Open (pre ++ LOp.DropOp :: post) = 0)
    ∧ (∀ pre : List LOp, (Drop (runOps State.Open pre)).1 = true →
        okFinals State.Open pre ≠ 0 → runOps State.Open pre = State.FinalEmitted) := by
  refine ⟨fun ops => okFinals_eq_zero_of_ne_open (by simp) ops, ?_, ?_⟩
  · intro pre post hpre
    rw [okFinals_append, okFinals_eq_zero_of_runOps_open pre hpre, hpre]
    have h1 : stepState State.Open LOp.DropOp = State.Dropped := by decide
    simp only [okFinals, h1]
    rw [if_neg (by rintro ⟨h2, -⟩; cases h2),
      okFinals_eq_zero_of_ne_open (s := State.Dropped) (by simp) post]
  · intro pre hdrop hfin
    cases hs : runOps State.Open pre with
    | Open => exact absurd (okFinals_eq_zero_of_runOps_open pre hs) hfin
    | FinalEmitted => rfl
    | Closed => rw [hs] at hdrop; exact absurd hdrop (by decide)
    | Dropped => rw [hs] at hdrop; exact absurd hdrop (by decide)

/-- C1 (amended, witness). -/
theorem claim_C1_amended_witness :
    okFinals State.Open ([LOp.EmitPartialOp] ++ LOp.DropOp :: [LOp.EmitFinalOp]) = 0
    ∧ runOps State.Open [LOp.EmitFinalOp] = State.FinalEmitted :=
  ⟨claim_C1_amended.2.1 [LOp.EmitPartialOp] [LOp.EmitFinalOp] (by decide),
   claim_C1_amended.2.2 [LOp.EmitFinalOp] (by decide) (by decide)⟩

/-- C2.  `EmitFinal` succeeds exactly from `OPEN`, and that success is the
only transition `OPEN → FINAL_EMITTED`; from `FINAL_EMITTED` it fails with
`ErrFinalAlreadyEmitted`, from `CLOSED`/`DROPPED` with `ErrSegmentClosed`;
along any no-reset trace at most one `EmitFinal` succeeds; and a rejected
`OnFinal` publishes nothing and leaves the handler untouched — so at most
one final is published per segment. -/
theorem claim_C2_final_once :
    (∀ s : State, (∃ s1, EmitFinal s = Except.ok s1) ↔ s = State.Open)
    ∧ EmitFinal State.Open = Except.ok State.FinalEmitted
    ∧ (∀ op : LOp, stepState State.Open op = State.FinalEmitted ↔ op = LOp.EmitFinalOp)
    ∧ EmitFinal State.FinalEmitted = Except.error LifecycleErr.ErrFinalAlreadyEmitted
    ∧ EmitFinal State.Closed = Except.error LifecycleErr.ErrSegmentClosed
    ∧ EmitFinal State.Dropped = Except.error LifecycleErr.ErrSegmentClosed
    ∧ (∀ ops : List LOp, okFinals State.Open ops ≤ 1)
    ∧ (∀ (h : Handler) (text : String) (confidence : Float64) (now : Int),
        h.lifecycle.state ≠ State.Open →
        onFinal h text confidence now = (h, none, false)) := by
  refine ⟨?_, rfl, ?_, rfl, rfl, rfl, okFinals_le_one, onFinal_rejected⟩
  · intro s
    cases s <;> simp [EmitFinal]
  · intro op
    cases op <;> simp [stepState, EmitPartial, EmitFinal, CloseSeg, Drop, State.IsTerminal]

/-- Sample handler whose segment already has its final emitted. -/
def hFinalSample : Handler :=
  { newHandlerWithLimits (some 1) "int-1" "tenant-1" "int-1-seg-1"
      { MaxAudioBytes := 100, MaxDuration := 0, MaxPartials := 0 } 0 with
    lifecycle := { segmentId := "int-1-seg-1", state := State.FinalEmitted } }

/-- C2 (witness). -/
theorem claim_C2_final_once_witness :
    okFinals State.Open [LOp.EmitFinalOp, LOp.EmitFinalOp] ≤ 1
    ∧ onFinal hFinalSample "dup" (Float64.finite 0) 7 = (hFinalSample, none, false) :=
  ⟨claim_C2_final_once.2.2.2.2.2.2.1 [LOp.EmitFinalOp, LOp.EmitFinalOp],
   claim_C2_final_once.2.2.2.2.2.2.2 hFinalSample "dup" (Float64.finite 0) 7 (by decide)⟩

/-- C6.  `EmitPartial` succeeds exactly from `OPEN` and never changes the
state; from `FINAL_EMITTED` it fails with `ErrCannotEmitPartialAfterFinal`,
from `CLOSED`/`DROPPED` with `ErrSegmentClosed`; a rejected `OnPartial`
publishes nothing and leaves the handler untouched; and every published
partial was admitted while its segment was `OPEN`. -/
theorem claim_C6_partial_only_open :
    (∀ s : State, (∃ s1, EmitPartial s = Except.ok s1) ↔ s = State.Open)
    ∧ EmitPartial State.Open = Except.ok State.Open
    ∧ EmitPartial State.FinalEmitted = Except.error LifecycleErr.ErrCannotEmitPartialAfterFinal
    ∧ EmitPartial State.Closed = Except.error LifecycleErr.ErrSegmentClosed
    ∧ EmitPartial State.Dropped = Except.error LifecycleErr.ErrSegmentClosed
    ∧ (∀ (h : Handler) (text : String) (now : Int),
        h.lifecycle.state ≠ State.Open → onPartial h text now = (h, none))
    ∧ (∀ (h : Handler) (text : String) (now : Int) (h2 : Handler) (ev : TranscriptPartial),
        onPartial h text now = (h2, some ev) →
        h.lifecycle.state = State.Open ∧ h2.lifecycle.state = State.Open
          ∧ ev.segmentId = h.lifecycle.segmentId) := by
  refine ⟨?_, rfl, rfl, rfl, rfl, onPartial_rejected, onPartial_published⟩
  intro s
  cases s <;> simp [ EmitPartial]

/-- Sample handler with an `OPEN` segment and permissive limits. -/
def hOpenSample : Handler :=
  newHandlerWithLimits (some 1) "int-1" "tenant-1" "int-1-seg-1"
    { MaxAudioBytes := 100, MaxDuration := 0, MaxPartials := 0 } 0

/-- Sample handler whose segment was dropped. -/
def hDroppedSample : Handler :=
  { hOpenSample with lifecycle := { segmentId := "int-1-seg-1", state := State.Dropped } }

/-- C6 (witness). -/
theorem claim_C6_partial_only_open_witness :
    onPartial hDroppedSample "late" 3 = (hDroppedSample, none)
    ∧ hOpenSample.lifecycle.state = State.Open :=
  ⟨claim_C6_partial_only_open.2.2.2.2.2.1 hDroppedSample "late" 3 (by decide),
   (claim_C6_partial_only_open.2.2.2.2.2.2 hOpenSample "hi" 3
      { hOpenSample with partialCount := 1 }
      { eventType := "interaction.transcript.partial", interactionId := "int-1",
        tenantId := "tenant-1", segmentId := "int-1-seg-1", text := "hi", timestamp := 3 }
      (by decide)).1⟩

/-- C3.  `OnEndOfUtterance` only arms the pending-restart flag: no
lifecycle transition, no segment id change, no counter or timer reset — so
if no final follows, the segment keeps its state (`OPEN` stays `OPEN`) and
its original id until `Close` or `Drop`. -/
theorem claim_C3_eou_only_flag (h : Handler) :
    onEndOfUtterance h = { h with pendingRestart := true }
    ∧ (onEndOfUtterance h).lifecycle = h.lifecycle
    ∧ (onEndOfUtterance h).lifecycle.segmentId = h.lifecycle.segmentId
    ∧ (onEndOfUtterance h).lifecycle.state = h.lifecycle.state
    ∧ (onEndOfUtterance h).audioBytes = h.audioBytes
    ∧ (onEndOfUtterance h).partialCount = h.partialCount
    ∧ (onEndOfUtterance h).segmentStartTime = h.segmentStartTime
    ∧ (onEndOfUtterance h).utteranceCount = h.utteranceCount
    ∧ (onEndOfUtterance h).gen = h.gen :=
  ⟨rfl, rfl, rfl, rfl, rfl, rfl, rfl, rfl, rfl⟩

/-- C4.  When `OnFinal` succeeds, the final for the old segment is handed
to the publisher, and then: with `pendingRestart` set, the flag is cleared
and the single-utterance rollover runs (old segment closed and replaced by
a fresh generator id in `OPEN` state, byte/partial counters and start time
reset) with an adapter restart (given that `Start` stored the stream
context); otherwise with `continuousMode` set, the same rollover runs
without restarting the adapter; otherwise no rollover happens. -/
theorem claim_C4_onfinal_branches (h : Handler) (text : String) (confidence : Float64)
    (now : Int) (hopen : h.lifecycle.state = State.Open) :
    ((onFinal h text confidence now).2.1 = some
      { eventType := "interaction.transcript.final", interactionId := h.interactionId,
        tenantId := h.tenantId, segmentId := h.lifecycle.segmentId, text := text,
        confidence := confidence, audioOffsetMs := h.lastAudioOffsetMs, timestamp := now })
    ∧ (h.pendingRestart = true → h.ctxSet = true → ∀ c : Nat, h.gen = some c →
        (onFinal h text confidence now).1 =
          { h with
              lifecycle := { segmentId := mkSegId h.interactionId ((c + 1) % U64),
                             state := State.Open },
              pendingRestart := false, audioBytes := 0, partialCount := 0,
              segmentStartTime := now, utteranceCount := h.utteranceCount + 1,
              gen := some ((c + 1) % U64) }
        ∧ (onFinal h text confidence now).2.2 = true)
    ∧ (h.pendingRestart = false → h.continuousMode = true → ∀ c : Nat, h.gen = some c →
        (onFinal h text confidence now).1 =
          { h with
              lifecycle := { segmentId := mkSegId h.interactionId ((c + 1) % U64),
                             state := State.Open },
              audioBytes := 0, partialCount := 0,
              segmentStartTime := now, utteranceCount := h.utteranceCount + 1,
              gen := some ((c + 1) % U64) }
        ∧ (onFinal h text confidence now).2.2 = false)
    ∧ (h.pendingRestart = false → h.continuousMode = false →
        (onFinal h text confidence now).1 =
          { h with lifecycle := { h.lifecycle with state := State.FinalEmitted } }
        ∧ (onFinal h text confidence now).2.2 = false) := by
  have hE : EmitFinal h.lifecycle.state = Except.ok State.FinalEmitted := by
    rw [hopen]
    rfl
  refine ⟨?_, ?_, ?_, ?_⟩
  · simp only [onFinal, hE]
    by_cases hp : h.pendingRestart <;>
      by_cases hc : h.continuousMode <;>
        simp [hp, hc, rolloverSegment]
  · intro hp hctx c hgen
    simp only [onFinal, hE, hp, if_true]
    constructor
    · simp only [rolloverSegment, hgen, generatorNext]
    · exact hctx
  · intro hp hc c hgen
    simp only [onFinal, hE, hp, hc, Bool.false_eq_true, if_false, if_true]
    constructor
    · simp only [rolloverSegment, hgen, generatorNext]
    · trivial
  · intro hp hc
    simp only [onFinal, hE, hp, hc, Bool.false_eq_true, if_false]
    constructor <;> trivial

/-- Sample handler with a pending restart armed and a stored context. -/
def hPendingSample : Handler :=
  { hOpenSample with pendingRestart := true, ctxSet := true, lastAudioOffsetMs := 880,
                     audioBytes := 50, partialCount := 3 }

/-- C4 (witness). -/
theorem claim_C4_onfinal_branches_witness :
    ((onFinal hPendingSample "bye" (Float64.finite 94) 1000).2.1 = some
      { eventType := "interaction.transcript.final", interactionId := "int-1",
        tenantId := "tenant-1", segmentId := "int-1-seg-1", text := "bye",
        confidence := Float64.finite 94, audioOffsetMs := 880, timestamp := 1000 })
    ∧ (onFinal hPendingSample "bye" (Float64.finite 94) 1000).1.lifecycle.segmentId = "int-1-seg-2"
    ∧ (onFinal hPendingSample "bye" (Float64.finite 94) 1000).1.lifecycle.state = State.Open
    ∧ (onFinal hPendingSample "bye" (Float64.finite 94) 1000).1.audioBytes = 0
    ∧ (onFinal hPendingSample "bye" (Float64.finite 94) 1000).2.2 = true := by
  obtain ⟨hev, hroll, -, -⟩ := claim_C4_onfinal_branches hPendingSample "bye" (Float64.finite 94) 1000 (by decide)
  obtain ⟨hh, hrestart⟩ := hroll (by decide) (by decide) 1 (by decide)
  refine ⟨hev, ?_, ?_, ?_, hrestart⟩
  · rw [hh]; decide
  · rw [hh]
  · rw [hh]

theorem strAppend_assoc (a b c : String) : a ++ b ++ c = a ++ (b ++ c) := by
  apply String.ext
  simp [String.data_append, List.append_assoc]

/-- Splitting the byte-limit reason string after its fixed head. -/
theorem exceeded_reason_split (h1 : Handler) :
    bytesReason h1 = "max audio bytes exceeded"
      ++ (": " ++ toString h1.audioBytes ++ " > " ++ toString h1.limits.MaxAudioBytes) := by
  have hlit : ("max audio bytes exceeded: " : String) = "max audio bytes exceeded" ++ ": " := by
    decide
  rw [bytesReason, hlit]
  simp only [strAppend_assoc]

/-- Sample handler whose segment is already `CLOSED`, with 60 bytes seen. -/
def hClosedSample : Handler :=
  { hOpenSample with lifecycle := { segmentId := "int-1-seg-1", state := State.Closed },
                     audioBytes := 60 }

/-- C5 (counterexample).  On a segment that is already `CLOSED`, an
over-limit `SendAudio` still fails with the limit error and does not
forward the frame, but `Drop` is a no-op from a terminal state: the state
stays `CLOSED` and does not become `DROPPED` as the claim requires of
every over-limit call. -/
theorem claim_C5_counterexample :
    (sendAudio hClosedSample (List.replicate 60 0) 5 0).2 =
      SendOutcome.limitExceeded "max audio bytes exceeded: 120 > 100"
        "segment limit exceeded: max audio bytes exceeded: 120 > 100"
    ∧ (sendAudio hClosedSample (List.replicate 60 0) 5 0).1.lifecycle.state = State.Closed
    ∧ (sendAudio hClosedSample (List.replicate 60 0) 5 0).1.lifecycle.state ≠ State.Dropped := by
  decide

/-- C5 (amended).  For every `SendAudio` call with `MaxAudioBytes > 0`
whose updated byte total exceeds the limit, the call fails with the
limit-exceeded error whose drop reason extends `"max audio bytes
exceeded"`, the frame is not forwarded to the adapter, and the segment is
dropped — the state becomes `DROPPED` — unless it was already `CLOSED`
(then the drop is a no-op and it stays `CLOSED`).  Concretely, with limit
100, a 50-byte frame is accepted and forwarded and a following 60-byte
frame fails with the byte counter reading 110 at the drop. -/
theorem claim_C5_amended :
    (∀ (h : Handler) (audio : List Nat) (off now : Int),
      h.limits.MaxAudioBytes > 0 →
      h.audioBytes + (audio.length : Int) > h.limits.MaxAudioBytes →
      (∃ rest : String, (sendAudio h audio off now).2 =
          SendOutcome.limitExceeded ("max audio bytes exceeded" ++ rest)
            ("segment limit exceeded: " ++ ("max audio bytes exceeded" ++ rest)))
      ∧ (h.lifecycle.state ≠ State.Closed →
          (sendAudio h audio off now).1.lifecycle.state = State.Dropped)
      ∧ (h.lifecycle.state = State.Closed →
          (sendAudio h audio off now).1.lifecycle.state = State.Closed))
    ∧ ((sendAudio hOpenSample (List.replicate 50 0) 0 0).2 = SendOutcome.forwarded
      ∧ (sendAudio hOpenSample (List.replicate 50 0) 0 0).1.audioBytes = 50
      ∧ (sendAudio (sendAudio hOpenSample (List.replicate 50 0) 0 0).1
            (List.replicate 60 0) 1 0).1.audioBytes = 110
      ∧ (sendAudio (sendAudio hOpenSample (List.replicate 50 0) 0 0).1
            (List.replicate 60 0) 1 0).1.lifecycle.state = State.Dropped
      ∧ (sendAudio (sendAudio hOpenSample (List.replicate 50 0) 0 0).1
            (List.replicate 60 0) 1 0).2 =
          SendOutcome.limitExceeded "max audio bytes exceeded: 110 > 100"
            "segment limit exceeded: max audio bytes exceeded: 110 > 100") := by
  constructor
  · intro h audio off now hpos hover
    have hcond : (sendAudioUpdated h audio off).limits.MaxAudioBytes > 0
        ∧ (sendAudioUpdated h audio off).audioBytes >
          (sendAudioUpdated h audio off).limits.MaxAudioBytes := ⟨hpos, hover⟩
    refine ⟨?_, ?_, ?_⟩
    · refine ⟨": " ++ toString (h.audioBytes + (audio.length : Int)) ++ " > "
        ++ toString h.limits.MaxAudioBytes, ?_⟩
      simp only [sendAudio, sendAudioChecked, if_pos hcond]
      rw [exceeded_reason_split]
      rfl
    · intro hnc
      simp only [sendAudio, sendAudioChecked, if_pos hcond, dropSegment, Drop]
      split
      · next hterm =>
        have hCD : h.lifecycle.state = State.Closed ∨ h.lifecycle.state = State.Dropped := by
          simpa [State.IsTerminal, sendAudioUpdated] using hterm
        have hdr : h.lifecycle.state = State.Dropped := hCD.resolve_left hnc
        simpa [sendAudioUpdated] using hdr
      · rfl
    · intro hcl
      simp only [sendAudio, sendAudioChecked, if_pos hcond, dropSegment, Drop]
      split
      · next hterm =>
        simpa [sendAudioUpdated] using hcl
      · next hterm =>
        exfalso
        apply hterm
        simp [sendAudioUpdated, State.IsTerminal, hcl]
  · decide

/-- C5 (amended, witness): an over-limit send on an `OPEN` segment ends
`DROPPED`; on an already-`CLOSED` segment it still errors but the state
stays `CLOSED`. -/
theorem claim_C5_amended_witness :
    (∃ rest : String, (sendAudio hOpenSample (List.replicate 101 0) 2 0).2 =
        SendOutcome.limitExceeded ("max audio bytes exceeded" ++ rest)
          ("segment limit exceeded: " ++ ("max audio bytes exceeded" ++ rest)))
    ∧ (sendAudio hOpenSample (List.replicate 101 0) 2 0).1.lifecycle.state = State.Dropped
    ∧ (sendAudio hClosedSample (List.replicate 60 0) 5 0).1.lifecycle.state = State.Closed :=
  ⟨(claim_C5_amended.1 hOpenSample (List.replicate 101 0) 2 0 (by decide) (by decide)).1,
   (claim_C5_amended.1 hOpenSample (List.replicate 101 0) 2 0 (by decide)
      (by decide)).2.1 (by decide),
   (claim_C5_amended.1 hClosedSample (List.replicate 60 0) 5 0 (by decide)
      (by decide)).2.2 (by decide)⟩

/-- C10.  `SendAudio` is not atomic on failure: whenever it returns the
limit-exceeded error, the state updates made before the limit check
persist — the stored offset equals the failing call's offset argument and
the byte total includes the rejected frame's length. -/
theorem claim_C10_sendaudio_not_atomic (h : Handler) (audio : List Nat) (off now : Int)
    (reason errMsg : String)
    (_herr : (sendAudio h audio off now).2 = SendOutcome.limitExceeded reason errMsg) :
    (sendAudio h audio off now).1.lastAudioOffsetMs = off
    ∧ (sendAudio h audio off now).1.audioBytes = h.audioBytes + (audio.length : Int) := by
  unfold sendAudio sendAudioChecked
  split
  · exact ⟨rfl, rfl⟩
  · split
    · exact ⟨rfl, rfl⟩
    · exact ⟨rfl, rfl⟩

/-- C10 (witness). -/
theorem claim_C10_sendaudio_not_atomic_witness :
    (sendAudio hOpenSample (List.replicate 101 0) 42 0).1.lastAudioOffsetMs = 42
    ∧ (sendAudio hOpenSample (List.replicate 101 0) 42 0).1.audioBytes = 0 + (101 : Int) :=
  claim_C10_sendaudio_not_atomic hOpenSample (List.replicate 101 0) 42 0
    "max audio bytes exceeded: 101 > 100"
    "segment limit exceeded: max audio bytes exceeded: 101 > 100" (by decide)

/-- A context-cancellation error as seen by the stream driver. -/
def errCtxCanceled : StreamErr :=
  { isContextCanceled := true, isContextDeadline := false, grpcStatus := none,
    isIoEOF := false, errString := "context canceled" }

/-- C7 (counterexample).  The classifier does not return the bare reasons
of the claim: for a cancellation it returns
`"client disconnect (context canceled)"`, not `"client disconnect"`. -/
theorem claim_C7_counterexample :
    classifyStreamError (some errCtxCanceled) = "client disconnect (context canceled)"
    ∧ classifyStreamError (some errCtxCanceled) ≠ "client disconnect" := by
  decide

/-- C7 (amended).  The classifier returns the spec's reasons extended with
a parenthesised detail — `"client disconnect (context canceled)"` /
`"client disconnect (gRPC canceled)"` for cancellation, `"timeout
(deadline exceeded)"` / `"timeout (gRPC deadline exceeded)"` for deadline
expiry, `"network error (unavailable)"` for unavailability, `"unexpected
connection close (EOF)"` for unexpected EOF — exactly `"resource
exhausted"` for resource exhaustion; and it does not map every remaining
error to the bare stringified error: a gRPC `Internal` status yields
`"internal error"`, any other gRPC status `"gRPC error: <code>"`, and only
non-status errors yield `"stream error: "` followed by the stringified
error (`nil` yields `"unknown"`). -/
theorem claim_C7_amended :
    (∀ e : StreamErr, e.isContextCanceled = true →
      classifyStreamError (some e) = "client disconnect (context canceled)")
    ∧ (∀ e : StreamErr, e.isContextCanceled = false → e.isContextDeadline = true →
      classifyStreamError (some e) = "timeout (deadline exceeded)")
    ∧ (∀ e : StreamErr, e.isContextCanceled = false → e.isContextDeadline = false →
      e.grpcStatus = some GrpcCode.Canceled →
      classifyStreamError (some e) = "client disconnect (gRPC canceled)")
    ∧ (∀ e : StreamErr, e.isContextCanceled = false → e.isContextDeadline = false →
      e.grpcStatus = some GrpcCode.DeadlineExceeded →
      classifyStreamError (some e) = "timeout (gRPC deadline exceeded)")
    ∧ (∀ e : StreamErr, e.isContextCanceled = false → e.isContextDeadline = false →
      e.grpcStatus = some GrpcCode.Unavailable →
      classifyStreamError (some e) = "network error (unavailable)")
    ∧ (∀ e : StreamErr, e.isContextCanceled = false → e.isContextDeadline = false →
      e.grpcStatus = some GrpcCode.ResourceExhausted →
      classifyStreamError (some e) = "resource exhausted")
    ∧ (∀ e : StreamErr, e.isContextCanceled = false → e.isContextDeadline = false →
      e.grpcStatus = some GrpcCode.Internal →
      classifyStreamError (some e) = "internal error")
    ∧ (∀ (e : StreamErr) (s : String), e.isContextCanceled = false →
      e.isContextDeadline = false → e.grpcStatus = some (GrpcCode.OtherCode s) →
      classifyStreamError (some e) = "gRPC error: " ++ s)
    ∧ (∀ e : StreamErr, e.isContextCanceled = false → e.isContextDeadline = false →
      e.grpcStatus = none → (e.isIoEOF = true ∨ e.errString = "EOF") →
      classifyStreamError (some e) = "unexpected connection close (EOF)")
    ∧ (∀ e : StreamErr, e.isContextCanceled = false → e.isContextDeadline = false →
      e.grpcStatus = none → e.isIoEOF = false → e.errString ≠ "EOF" →
      classifyStreamError (some e) = "stream error: " ++ e.errString)
    ∧ classifyStreamError none = "unknown" := by
  refine ⟨?_, ?_, ?_, ?_, ?_, ?_, ?_, ?_, ?_, ?_, rfl⟩
  · intro e h1
    simp [classifyStreamError, h1]
  · intro e h1 h2
    simp [classifyStreamError, h1, h2]
  · intro e h1 h2 h3
    simp [classifyStreamError, h1, h2, h3]
  · intro e h1 h2 h3
    simp [classifyStreamError, h1, h2, h3]
  · intro e h1 h2 h3
    simp [classifyStreamError, h1, h2, h3]
  · intro e h1 h2 h3
    simp [classifyStreamError, h1, h2, h3]
  · intro e h1 h2 h3
    simp [classifyStreamError, h1, h2, h3]
  · intro e s h1 h2 h3
    simp [classifyStreamError, h1, h2, h3]
  · intro e h1 h2 h3 h4
    rcases h4 with h4 | h4 <;> simp [classifyStreamError, h1, h2, h3, h4]
  · intro e h1 h2 h3 h4 h5
    simp [classifyStreamError, h1, h2, h3, h4, h5]

/-- A resource-exhaustion gRPC status error. -/
def errResourceExhausted : StreamErr :=
  { isContextCanceled := false, isContextDeadline := false,
    grpcStatus := some GrpcCode.ResourceExhausted, isIoEOF := false, errString := "rpc error" }

/-- An unclassified non-status error. -/
def errOtherSample : StreamErr :=
  { isContextCanceled := false, isContextDeadline := false,
    grpcStatus := none, isIoEOF := false, errString := "boom" }

/-- C7 (amended, witness). -/
theorem claim_C7_amended_witness :
    classifyStreamError (some errResourceExhausted) = "resource exhausted"
    ∧ classifyStreamError (some errOtherSample) = "stream error: " ++ "boom" :=
  ⟨claim_C7_amended.2.2.2.2.2.1 errResourceExhausted rfl rfl rfl,
   claim_C7_amended.2.2.2.2.2.2.2.2.2.1 errOtherSample rfl rfl rfl rfl (by decide)⟩

/-- The construction paths of `events.New` that yield the disabled
(log-only) publisher: nil config, `Enabled == false`, or no brokers. -/
def disabledMode : Option KafkaConfig → Prop
  | none => True
  | some cfg => cfg.Enabled = false ∨ cfg.Brokers = []

/-- Every disabled construction path of `events.New` yields a publisher
with `enabled = false`. -/
theorem eventsNew_disabled (ocfg : Option KafkaConfig) (hdis : disabledMode ocfg) :
    (eventsNew ocfg).enabled = false := by
  cases ocfg with
  | none => rfl
  | some cfg =>
    have hcond : ¬(cfg.Enabled = true) ∨ cfg.Brokers = [] := by
      rcases hdis with h | h
      · exact Or.inl (by simp [h])
      · exact Or.inr h
    simp only [eventsNew]
    rw [if_pos hcond]

/-- With the marshal step succeeded, a disabled publisher succeeds no
matter what the bus would do. -/
theorem publishTo_disabled (p : Publisher) (hw : Bool) (busWrite : Except String Unit)
    (hp : p.enabled = false) :
    publishTo p hw (Except.ok ()) busWrite = Except.ok () := by
  simp [publishTo, hp]

/-- A config with brokers present but publishing disabled. -/
def cfgDisabledSample : KafkaConfig :=
  { Brokers := ["b:9092"], TopicPartial := "interaction.transcript.partial",
    TopicFinal := "interaction.transcript.final", Principal := "svc", Enabled := false }

/-- A sample partial record. -/
def pevSample : TranscriptPartial :=
  { eventType := "interaction.transcript.partial", interactionId := "int-1",
    tenantId := "t", timestamp := 1, segmentId := "int-1-seg-1", text := "hi" }

/-- A sample final record. -/
def fevSample : TranscriptFinal :=
  { eventType := "interaction.transcript.final", interactionId := "int-1",
    tenantId := "t", timestamp := 2, segmentId := "int-1-seg-1", text := "bye",
    confidence := Float64.finite 94, audioOffsetMs := 10 }

/-- A final record whose `float64` confidence is `NaN`. -/
def fevNaNSample : TranscriptFinal :=
  { fevSample with confidence := Float64.nan }

/-- C8 (counterexample).  `Publisher.publish` marshals *before* the
disabled check, and `json.Marshal` rejects a `NaN` confidence, so even a
disabled-mode `PublishFinal` returns an error for such a record — the
claim's "succeed unconditionally for every record" fails. -/
theorem claim_C8_counterexample :
    publishFinalEv (eventsNew (some cfgDisabledSample)) "int-1" fevNaNSample
      (Except.ok ()) = Except.error "json: unsupported value: NaN"
    ∧ publishFinalEv (eventsNew (some cfgDisabledSample)) "int-1" fevNaNSample
      (Except.ok ()) ≠ Except.ok () :=
  ⟨rfl, fun h => Except.noConfusion h⟩

/-- C8 (amended).  In disabled mode, `PublishPartial` succeeds for every
key, record and bus outcome; `PublishFinal` succeeds for every record
whose confidence is a finite `float64`, and returns the JSON marshal
error — even though the publisher is disabled — when the confidence is
`NaN`/`±Inf`, because marshalling runs before the disabled check. -/
theorem claim_C8_amended (ocfg : Option KafkaConfig) (hdis : disabledMode ocfg)
    (key : String) (pev : TranscriptPartial) (fev : TranscriptFinal)
    (busP busF : Except String Unit) :
    publishPartialEv (eventsNew ocfg) key pev busP = Except.ok ()
    ∧ ((∃ x : Int, fev.confidence = Float64.finite x) →
        publishFinalEv (eventsNew ocfg) key fev busF = Except.ok ())
    ∧ ((∀ x : Int, fev.confidence ≠ Float64.finite x) →
        publishFinalEv (eventsNew ocfg) key fev busF =
          Except.error ("json: unsupported value: " ++ (fev.confidence).jsonErrName)) := by
  refine ⟨?_, ?_, ?_⟩
  · exact publishTo_disabled (eventsNew ocfg) (eventsNew ocfg).hasWriterPartial busP
      (eventsNew_disabled ocfg hdis)
  · rintro ⟨x, hx⟩
    have hm : marshalFinalRes fev = Except.ok () := by
      simp only [marshalFinalRes, hx]
    rw [publishFinalEv, hm]
    exact publishTo_disabled (eventsNew ocfg) (eventsNew ocfg).hasWriterFinal busF
      (eventsNew_disabled ocfg hdis)
  · intro hnf
    have hm : marshalFinalRes fev =
        Except.error ("json: unsupported value: " ++ (fev.confidence).jsonErrName) := by
      cases hc : fev.confidence with
      | finite x => exact absurd hc (hnf x)
      | nan => simp only [marshalFinalRes, hc]
      | posInf => simp only [marshalFinalRes, hc]
      | negInf => simp only [marshalFinalRes, hc]
    rw [publishFinalEv, hm]
    rfl

/-- C8 (amended, witness): even with the bus transport failing, the
disabled publisher reports success on marshallable records, and rejects
the `NaN`-confidence record. -/
theorem claim_C8_amended_witness :
    publishPartialEv (eventsNew (some cfgDisabledSample)) "int-1" pevSample
      (Except.error "kafka down") = Except.ok ()
    ∧ publishFinalEv (eventsNew (some cfgDisabledSample)) "int-1" fevSample
      (Except.error "kafka down") = Except.ok ()
    ∧ publishFinalEv (eventsNew (some cfgDisabledSample)) "int-1" fevNaNSample
      (Except.error "kafka down") =
        Except.error ("json: unsupported value: " ++ (Float64.nan).jsonErrName) := by
  have h1 := claim_C8_amended (some cfgDisabledSample) (Or.inl rfl) "int-1" pevSample fevSample
    (Except.error "kafka down") (Except.error "kafka down")
  have h2 := claim_C8_amended (some cfgDisabledSample) (Or.inl rfl) "int-1" pevSample fevNaNSample
    (Except.error "kafka down") (Except.error "kafka down")
  refine ⟨h1.1, h1.2.1 ⟨94, rfl⟩, h2.2.2 ?_⟩
  intro x hx
  have hne : Float64.nan = Float64.finite x := hx
  exact Float64.noConfusion hne

/-- C9 (counterexample).  The generator's `uint64` counter wraps at
`2^64`: at call `2^64` the value `n` is smaller than at call `2^64 - 1`
(so `n` is not monotone over all calls), and call `2^64 + 1` reuses the
segment id of call 1. -/
theorem claim_C9_counterexample :
    genCounterAfter (2 ^ 64) < genCounterAfter (2 ^ 64 - 1)
    ∧ segIdAt "x" (2 ^ 64 + 1) = segIdAt "x" 1
    ∧ (2 ^ 64 + 1 : Nat) ≠ 1 := by
  have hpow : (2 : Nat) ^ 64 = 18446744073709551616 := by norm_num
  have h1 : genCounterAfter (2 ^ 64) = 0 := by
    rw [genCounterAfter_eq, U64, Nat.mod_self]
  have h2 : genCounterAfter (2 ^ 64 - 1) = 2 ^ 64 - 1 := by
    rw [genCounterAfter_eq, U64]
    exact Nat.mod_eq_of_lt (by omega)
  refine ⟨?_, ?_, by omega⟩
  · rw [h1, h2]
    omega
  · show (generatorNext (genCounterAfter (2 ^ 64 + 1 - 1)) "x").2
      = (generatorNext (genCounterAfter (1 - 1)) "x").2
    rw [Nat.add_sub_cancel, h1]
    rfl

/-- C9 (amended).  `Next` returns exactly `"{interaction_id}-seg-{n}"`
where `n` is the number of `Next` calls so far reduced modulo `2^64`; as
long as fewer than `2^64` ids have been generated, `n` equals the call
index, is strictly increasing and never reused; and ids are distinct for
distinct `(interaction_id, n)` pairs. -/
theorem claim_C9_amended :
    (∀ (i : String) (k : Nat), 1 ≤ k → k < U64 →
      genCounterAfter k = k ∧ segIdAt i k = mkSegId i k)
    ∧ (∀ j k : Nat, j < k → k < U64 → genCounterAfter j < genCounterAfter k)
    ∧ (∀ (i1 i2 : String) (n1 n2 : Nat),
        mkSegId i1 n1 = mkSegId i2 n2 → i1 = i2 ∧ n1 = n2) := by
  refine ⟨?_, ?_, fun i1 i2 n1 n2 h => mkSegId_inj h⟩
  · intro i k h1 h2
    refine ⟨by rw [genCounterAfter_eq]; exact Nat.mod_eq_of_lt h2, ?_⟩
    show (generatorNext (genCounterAfter (k - 1)) i).2 = mkSegId i k
    have hk1 : genCounterAfter (k - 1) = k - 1 := by
      rw [genCounterAfter_eq]
      exact Nat.mod_eq_of_lt (by omega)
    have hn : (k - 1 + 1) % U64 = k := by
      have hs : k - 1 + 1 = k := by omega
      rw [hs]
      exact Nat.mod_eq_of_lt h2
    rw [generatorNext, hk1]
    simp only [hn]
  · intro j k hjk hk
    rw [genCounterAfter_eq, genCounterAfter_eq,
      Nat.mod_eq_of_lt (by omega), Nat.mod_eq_of_lt hk]
    exact hjk

/-- C9 (amended, witness). -/
theorem claim_C9_amended_witness :
    (genCounterAfter 2 = 2 ∧ segIdAt "int-9" 2 = mkSegId "int-9" 2)
    ∧ genCounterAfter 1 < genCounterAfter 2
    ∧ ("a" : String) = "a" ∧ (5 : Nat) = 5 :=
  ⟨claim_C9_amended.1 "int-9" 2 (by norm_num) (by norm_num [U64]),
   claim_C9_amended.2.1 1 2 (by norm_num) (by norm_num [U64]),
   claim_C9_amended.2.2 "a" "a" 5 5 rfl⟩

end Ingress
